import Mathlib

/-!
Verification of the flowchart editor: a shallow embedding of the graph
store, camera, shape geometry, validation engine and storage layer,
together with theorems settling the specified properties.

Numeric values that are IEEE doubles in the source are modelled as exact
rationals (for the arithmetic-only code) or reals (for the trigonometric
shape geometry).
-/

namespace Flowchart

/-- A flowchart node, as created by CanvasManager.addNode:
`{ id, nodeType, x, y, width, height, text }` with center coordinates. -/
structure Node where
  id : String
  nodeType : String
  x : ℚ
  y : ℚ
  width : ℚ
  height : ℚ
  text : String
deriving DecidableEq

/-- A directed edge, as created by CanvasManager.addEdge:
`{ id, sourceId, targetId, label }`. -/
structure Edge where
  id : String
  sourceId : String
  targetId : String
  label : String
deriving DecidableEq

/-- The mutable graph state owned by CanvasManager: `this.nodes`,
`this.edges` and the two id counters. -/
structure GraphState where
  nodes : List Node
  edges : List Edge
  nodeCounter : Nat
  edgeCounter : Nat
deriving DecidableEq

/-- The initial empty state set up in the CanvasManager constructor. -/
def emptyState : GraphState :=
  { nodes := [], edges := [], nodeCounter := 0, edgeCounter := 0 }

/-- Whether `NodeTypes[t]` exists (the five keys of the NodeTypes table). -/
def knownType (t : String) : Bool :=
  t == "start" || t == "process" || t == "decision" || t == "input" || t == "end"

/-- `NodeTypes[t].defaultWidth` (0 for unknown types, which addNode rejects). -/
def defaultWidth : String → ℚ
  | "start" => 100
  | "process" => 120
  | "decision" => 120
  | "input" => 120
  | "end" => 100
  | _ => 0

/-- `NodeTypes[t].defaultHeight` (0 for unknown types, which addNode rejects). -/
def defaultHeight : String → ℚ
  | "start" => 50
  | "process" => 60
  | "decision" => 80
  | "input" => 60
  | "end" => 50
  | _ => 0

/-- `nodeType.charAt(0).toUpperCase() + nodeType.slice(1)` (source node
types are ASCII, so Char.toUpper agrees with JS toUpperCase here). -/
def capitalizeFirst (s : String) : String :=
  match s.toList with
  | [] => ""
  | c :: cs => String.mk (c.toUpper :: cs)

/-- CanvasManager.addNode: rejects unknown types, otherwise appends a node
with per-type default size and the id `node_<counter>`. -/
def addNode (s : GraphState) (nodeType : String) (x y : ℚ) :
    Option Node × GraphState :=
  if knownType nodeType then
    let node : Node :=
      { id := "node_" ++ toString (s.nodeCounter + 1)
        nodeType := nodeType
        x := x
        y := y
        width := defaultWidth nodeType
        height := defaultHeight nodeType
        text := capitalizeFirst nodeType }
    (some node,
     { s with nodes := s.nodes ++ [node], nodeCounter := s.nodeCounter + 1 })
  else
    (none, s)

/-- CanvasManager.addEdge: returns null only when an edge with the same
sourceId and targetId already exists; otherwise appends an edge with the
id `edge_<counter>` and an empty label. There is no self-loop check and no
check that the ids refer to existing nodes. -/
def addEdge (s : GraphState) (sourceId targetId : String) :
    Option Edge × GraphState :=
  if s.edges.any (fun e => e.sourceId == sourceId && e.targetId == targetId) then
    (none, s)
  else
    let e : Edge :=
      { id := "edge_" ++ toString (s.edgeCounter + 1)
        sourceId := sourceId
        targetId := targetId
        label := "" }
    (some e,
     { s with edges := s.edges ++ [e], edgeCounter := s.edgeCounter + 1 })

/-- Applies `f` to the first list element satisfying `p`, leaving the rest
unchanged; this is the effect of `list.find(...)` followed by an in-place
mutation of the found object. -/
def updateFirst (p : α → Bool) (f : α → α) : List α → List α
  | [] => []
  | a :: as => if p a then f a :: as else a :: updateFirst p f as

/-- CanvasManager.updateNodeText: mutates the text of the first node whose
id matches. -/
def updateNodeText (s : GraphState) (nodeId text : String) : GraphState :=
  { s with
    nodes := updateFirst (fun n => n.id == nodeId)
      (fun n => { n with text := text }) s.nodes }

/-- CanvasManager.updateEdgeLabel: mutates the label of the first edge
whose id matches. -/
def updateEdgeLabel (s : GraphState) (edgeId label : String) : GraphState :=
  { s with
    edges := updateFirst (fun e => e.id == edgeId)
      (fun e => { e with label := label }) s.edges }

/-- The argument of CanvasManager.deleteItem: a hit record with a type tag
and the id of the node or edge. -/
inductive Item where
  | node (id : String)
  | edge (id : String)
deriving DecidableEq

/-- CanvasManager.deleteItem: deleting a node also filters out every edge
whose sourceId or targetId equals the node id; deleting an edge removes
just that edge. -/
def deleteItem (s : GraphState) : Item → GraphState
  | .node nid =>
      { s with
        nodes := s.nodes.filter (fun n => n.id != nid)
        edges := s.edges.filter (fun e => e.sourceId != nid && e.targetId != nid) }
  | .edge eid =>
      { s with edges := s.edges.filter (fun e => e.id != eid) }

/-- The resizing branch of CanvasManager.handleMouseMove, acting on the
node found for the selected item: each corner direction adjusts width and
height by the pointer delta with floors `max(50, _)` and `max(30, _)`, and
unconditionally shifts the center by half the pointer delta. -/
def resizeNodeData (dir : String) (dx dy : ℚ) (n : Node) : Node :=
  match dir with
  | "nw" => { n with width := max 50 (n.width - dx), height := max 30 (n.height - dy),
                     x := n.x + dx / 2, y := n.y + dy / 2 }
  | "ne" => { n with width := max 50 (n.width + dx), height := max 30 (n.height - dy),
                     x := n.x + dx / 2, y := n.y + dy / 2 }
  | "se" => { n with width := max 50 (n.width + dx), height := max 30 (n.height + dy),
                     x := n.x + dx / 2, y := n.y + dy / 2 }
  | "sw" => { n with width := max 50 (n.width - dx), height := max 30 (n.height + dy),
                     x := n.x + dx / 2, y := n.y + dy / 2 }
  | _ => n

/-- Resize as a graph operation: apply the resize branch to the first node
with the given id (the selected node). -/
def resizeNode (s : GraphState) (nodeId dir : String) (dx dy : ℚ) : GraphState :=
  { s with nodes := updateFirst (fun n => n.id == nodeId) (resizeNodeData dir dx dy) s.nodes }

/-- Corner coordinates of a node (used by the resize handles drawing and
hit testing): north-west corner `(x - width/2, y - height/2)`. -/
def nwCorner (n : Node) : ℚ × ℚ := (n.x - n.width / 2, n.y - n.height / 2)

/-- North-east corner `(x + width/2, y - height/2)`. -/
def neCorner (n : Node) : ℚ × ℚ := (n.x + n.width / 2, n.y - n.height / 2)

/-- South-east corner `(x + width/2, y + height/2)`. -/
def seCorner (n : Node) : ℚ × ℚ := (n.x + n.width / 2, n.y + n.height / 2)

/-- South-west corner `(x - width/2, y + height/2)`. -/
def swCorner (n : Node) : ℚ × ℚ := (n.x - n.width / 2, n.y + n.height / 2)

/-- The node-creating and node-resizing operations, for stating the
minimum-size invariant over operation sequences. -/
inductive Op where
  | addNode (nodeType : String) (x y : ℚ)
  | resize (nodeId dir : String) (dx dy : ℚ)

/-- Apply one operation to the graph state. -/
def applyOp (s : GraphState) : Op → GraphState
  | .addNode t x y => (addNode s t x y).2
  | .resize nid dir dx dy => resizeNode s nid dir dx dy

/-- Apply a sequence of operations from left to right. -/
def applyOps (s : GraphState) (ops : List Op) : GraphState :=
  ops.foldl applyOp s

/-- Number of edges from `a` to `b` in the edge collection. -/
def countEdges (s : GraphState) (a b : String) : Nat :=
  (s.edges.filter (fun e => e.sourceId == a && e.targetId == b)).length

/-- Whether every edge endpoint resolves to a live node (the no-dangling
invariant claimed by the spec). -/
def edgesResolve (s : GraphState) : Bool :=
  s.edges.all (fun e =>
    s.nodes.any (fun n => n.id == e.sourceId) &&
    s.nodes.any (fun n => n.id == e.targetId))

/-- The camera state: `this.scale`, `this.offsetX`, `this.offsetY`. -/
structure Camera where
  scale : ℚ
  offsetX : ℚ
  offsetY : ℚ
deriving DecidableEq

/-- CanvasManager.viewportToCanvas:
`((clientX - rect.left) / scale - offsetX, (clientY - rect.top) / scale - offsetY)`. -/
def viewportToCanvas (cam : Camera) (rectLeft rectTop clientX clientY : ℚ) : ℚ × ℚ :=
  ((clientX - rectLeft) / cam.scale - cam.offsetX,
   (clientY - rectTop) / cam.scale - cam.offsetY)

/-- CanvasManager.handleWheel: converts the cursor to canvas coordinates,
multiplies the scale by 1.1 (deltaY < 0) or 0.9, and sets
`offset = p - (p - offset) * delta` on each axis. -/
def handleWheel (cam : Camera) (rectLeft rectTop clientX clientY deltaY : ℚ) : Camera :=
  let p := viewportToCanvas cam rectLeft rectTop clientX clientY
  let delta : ℚ := if deltaY < 0 then 11 / 10 else 9 / 10
  { scale := cam.scale * delta
    offsetX := p.1 - (p.1 - cam.offsetX) * delta
    offsetY := p.2 - (p.2 - cam.offsetY) * delta }

/-! ### ValidationEngine -/

/-- Message of the missing-start check. -/
def msgNoStart : String :=
  "No start node found. Add a start node to your flowchart."

/-- Message of the multiple-start check. -/
def msgMultipleStart : String :=
  "Multiple start nodes found. A flowchart should have only one start node."

/-- Message of the missing-end check. -/
def msgNoEnd : String :=
  "No end node found. Add an end node to your flowchart."

/-- Message for a node with neither incoming nor outgoing edges. -/
def msgDisconnected (t : String) : String :=
  "Node \"" ++ t ++ "\" is completely disconnected."

/-- Message for a node with no incoming edges. -/
def msgNoIncoming (t : String) : String :=
  "Node \"" ++ t ++ "\" has no incoming connections."

/-- Message for a node with no outgoing edges. -/
def msgNoOutgoing (t : String) : String :=
  "Node \"" ++ t ++ "\" has no outgoing connections."

/-- Message for a decision node with fewer than two outgoing edges. -/
def msgDecisionPaths (t : String) : String :=
  "Decision node \"" ++ t ++ "\" should have at least 2 outgoing paths."

/-- Message for a decision node with unlabeled outgoing edges. -/
def msgDecisionUnlabeled (t : String) (k : Nat) : String :=
  "Decision node \"" ++ t ++ "\" has " ++ toString k ++ " unlabeled outgoing paths."

/-- The cycle message: the source file's join separator is the literal
character sequence U+00E2 U+2020 U+2019 (a mis-encoded arrow). -/
def msgCycle (labels : List String) : String :=
  "Cycle detected: " ++ String.intercalate " â†’ " labels

/-- The fallback cycle message used when the back-edge target is not on
the current path. -/
def msgCycleGeneric : String := "Cycle detected in the flowchart."

/-- ValidationEngine.checkUnconnectedNodes: one message per node, in node
order, depending on its incoming/outgoing edges with start/end exemptions. -/
def checkUnconnectedNodes (nodes : List Node) (edges : List Edge) : List String :=
  nodes.foldl (fun msgs node =>
    let isEndNode := node.nodeType == "end"
    let isStartNode := node.nodeType == "start"
    let hasIncoming := isStartNode || edges.any (fun e => e.targetId == node.id)
    let hasOutgoing := isEndNode || edges.any (fun e => e.sourceId == node.id)
    if !hasIncoming && !hasOutgoing then msgs ++ [msgDisconnected node.text]
    else if !hasIncoming then msgs ++ [msgNoIncoming node.text]
    else if !hasOutgoing && !isEndNode then msgs ++ [msgNoOutgoing node.text]
    else msgs) []

/-- The adjacency object built in checkForCycles: one key per node (in
node order), and each edge whose source key exists appends its target. -/
def buildAdjacency (nodes : List Node) (edges : List Edge) :
    List (String × List String) :=
  edges.foldl (fun g e =>
    if g.any (fun p => p.1 == e.sourceId) then
      g.map (fun p => if p.1 == e.sourceId then (p.1, p.2 ++ [e.targetId]) else p)
    else g)
    (nodes.map (fun n => (n.id, [])))

/-- Lookup of `graph[nodeId]` in the adjacency object. -/
def adjGet (g : List (String × List String)) (nodeId : String) : List String :=
  ((g.find? (fun p => p.1 == nodeId)).map (fun p => p.2)).getD []

/-- The closure state shared by the recursive dfs in checkForCycles: the
`visited` object (keys only ever set to true), the `recStack` object
(modelled as the set of ids currently true) and the messages emitted. -/
structure DfsState where
  visited : List String
  recStack : List String
  msgs : List String
deriving DecidableEq

/-- Adds an id to a set-like list if not present (setting an object key to
true). The list length then equals `Object.keys(visited).length`. -/
def insertNew (id : String) (l : List String) : List String :=
  if l.contains id then l else l ++ [id]

/-- `node.text` of the node with the given id, or the id itself when no
such node exists (the cycle-label lookup in checkForCycles). -/
def labelOf (nodes : List Node) (id : String) : String :=
  match nodes.find? (fun n => n.id == id) with
  | some n => n.text
  | none => id

/-- The recursive `dfs(nodeId, path)` of checkForCycles: marks the node
visited and on the recursion stack, pushes it on the (per-call) path, then
walks `graph[nodeId]` — recursing into unvisited neighbors, and reporting
a cycle when a visited neighbor is still on the recursion stack, where
`path.indexOf` decides between the labeled and the generic cycle message.
A found cycle returns true immediately (the fold skips the remaining
neighbors, like the early return); only a false return pops the recursion
stack, so an early return leaves stale recStack entries behind. The fuel
bounds the recursion depth; it never runs out when dfs is reached through
the guarded calls of checkForCycles, which visit each node at most once. -/
def dfsVisit (fuel : Nat) (g : List (String × List String)) (nodes : List Node)
    (st : DfsState) (nodeId : String) (path : List String) : Bool × DfsState :=
  match fuel with
  | 0 => (false, st)
  | fuel + 1 =>
    let st := { st with visited := insertNew nodeId st.visited,
                        recStack := insertNew nodeId st.recStack }
    let path := path ++ [nodeId]
    let r := (adjGet g nodeId).foldl (fun acc neighbor =>
      if acc.1 then acc
      else if !(acc.2.visited.contains neighbor) then
        dfsVisit fuel g nodes acc.2 neighbor path
      else if acc.2.recStack.contains neighbor then
        match path.findIdx? (fun id => id == neighbor) with
        | some i =>
          let cycle := (path.drop i).map (labelOf nodes)
          let cycle := cycle ++ [cycle.headD ""]
          (true, { acc.2 with msgs := acc.2.msgs ++ [msgCycle cycle] })
        | none =>
          (true, { acc.2 with msgs := acc.2.msgs ++ [msgCycleGeneric] })
      else acc) ((false, st) : Bool × DfsState)
    match r with
    | (true, st) => (true, st)
    | (false, st) => (false, { st with recStack := st.recStack.erase nodeId })

/-- One root loop of checkForCycles: call dfs on each listed id that is
not yet visited (the dfs return value is discarded between roots). -/
def dfsRoots (fuel : Nat) (g : List (String × List String)) (nodes : List Node)
    (roots : List String) (st : DfsState) : DfsState :=
  roots.foldl (fun st id =>
    if st.visited.contains id then st
    else (dfsVisit fuel g nodes st id []).2) st

/-- ValidationEngine.checkForCycles: DFS from every start node, then — if
there were no start nodes or some node is still unvisited — from every
remaining node, collecting the cycle messages in order. -/
def checkForCycles (nodes : List Node) (edges : List Edge) : List String :=
  let g := buildAdjacency nodes edges
  let startNodes := nodes.filter (fun n => n.nodeType == "start")
  let fuel := nodes.length + 1
  let st : DfsState := ⟨[], [], []⟩
  let st := dfsRoots fuel g nodes (startNodes.map (fun n => n.id)) st
  if startNodes.length == 0 || st.visited.length < nodes.length then
    (dfsRoots fuel g nodes (nodes.map (fun n => n.id)) st).msgs
  else
    st.msgs

/-- ValidationEngine.checkDecisionNodes: per decision node, a message when
it has fewer than two outgoing edges, and a count message when it has at
least two but some lack a label. -/
def checkDecisionNodes (nodes : List Node) (edges : List Edge) : List String :=
  (nodes.filter (fun n => n.nodeType == "decision")).foldl (fun msgs node =>
    let outgoing := edges.filter (fun e => e.sourceId == node.id)
    let outgoingCount := outgoing.length
    let msgs :=
      if outgoingCount < 2 then msgs ++ [msgDecisionPaths node.text] else msgs
    let unlabeled := (outgoing.filter (fun e => e.label == "")).length
    if 2 ≤ outgoingCount && 0 < unlabeled then
      msgs ++ [msgDecisionUnlabeled node.text unlabeled]
    else msgs) []

/-- ValidationEngine.validateFlowchart: clears the messages and returns
early on an empty node list; otherwise runs the start-count, end-count,
connectivity, cycle and decision checks in order. -/
def validateFlowchart (nodes : List Node) (edges : List Edge) : List String :=
  if nodes.length == 0 then []
  else
    let startNodes := nodes.filter (fun n => n.nodeType == "start")
    let startMsgs :=
      if startNodes.length == 0 then [msgNoStart]
      else if 1 < startNodes.length then [msgMultipleStart]
      else []
    let endNodes := nodes.filter (fun n => n.nodeType == "end")
    let endMsgs := if endNodes.length == 0 then [msgNoEnd] else []
    startMsgs ++ endMsgs ++ checkUnconnectedNodes nodes edges ++
      checkForCycles nodes edges ++ checkDecisionNodes nodes edges

/-! ### StorageManager

The browser's localStorage is modelled as a keyed store of already-parsed
values (JSON.parse after JSON.stringify is the identity on the values this
code stores, so the round-trip is elided), with an optional capacity; a
setItem that would push the total stored size past the capacity throws
QuotaExceededError, which is how browsers signal a full quota. -/

/-- A stored value: the name-list kept under the list key, or a serialized
flowchart payload (kept abstract as a string). -/
inductive StoredVal where
  | slist (names : List String)
  | sdata (payload : String)
deriving DecidableEq

/-- Size charged to a stored value against the quota (character count of
the payload; a small constant-plus-lengths estimate for the list). -/
def storedValSize : StoredVal → Nat
  | .slist names => names.foldl (fun a s => a + s.length + 3) 2
  | .sdata payload => payload.length

/-- The localStorage model: key-value items plus an optional quota. -/
structure LocalStorage where
  items : List (String × StoredVal)
  capacity : Option Nat
deriving DecidableEq

/-- An exception thrown by the storage layer: the QuotaExceededError
DOMException, or a plain `Error` with a message. -/
inductive JsErr where
  | quotaExceeded
  | error (msg : String)
deriving DecidableEq

/-- Total size of the stored items. -/
def storageSize (items : List (String × StoredVal)) : Nat :=
  items.foldl (fun a p => a + p.1.length + storedValSize p.2) 0

/-- `localStorage.getItem` (null for a missing key). -/
def getItem (st : LocalStorage) (k : String) : Option StoredVal :=
  (st.items.find? (fun p => p.1 == k)).map (fun p => p.2)

/-- `localStorage.setItem`: replaces or appends the binding, throwing
QuotaExceededError when the result would exceed the capacity. -/
def setItem (st : LocalStorage) (k : String) (v : StoredVal) :
    Except JsErr LocalStorage :=
  let items :=
    if st.items.any (fun p => p.1 == k) then
      st.items.map (fun p => if p.1 == k then (k, v) else p)
    else st.items ++ [(k, v)]
  match st.capacity with
  | none => .ok { st with items := items }
  | some cap =>
      if storageSize items ≤ cap then .ok { st with items := items }
      else .error .quotaExceeded

/-- `localStorage.removeItem`. -/
def removeItem (st : LocalStorage) (k : String) : LocalStorage :=
  { st with items := st.items.filter (fun p => p.1 != k) }

/-- `StorageManager.FLOWCHART_LIST_KEY`. -/
def flowchartListKey : String := "flowcharter_flowchart_list"

/-- `StorageManager.FLOWCHART_PREFIX`, the per-flowchart key stem. -/
def flowchartKeyStem : String := "flowcharter_flowchart_"

/-- StorageManager.getFlowchartList: the parsed list value, or [] when the
key is missing or unparsable (the catch branch). -/
def getFlowchartList (st : LocalStorage) : List String :=
  match getItem st flowchartListKey with
  | some (.slist names) => names
  | _ => []

/-- StorageManager.updateFlowchartList: writes the list, converting any
setItem failure into a plain Error (so a quota hit here is no longer
recognizable as a DOMException by callers). -/
def updateFlowchartList (st : LocalStorage) (list : List String) :
    Except JsErr LocalStorage :=
  match setItem st flowchartListKey (.slist list) with
  | .ok st => .ok st
  | .error _ => .error (.error "Failed to update flowchart list")

/-- StorageManager.saveFlowchart: appends the name to the list if new,
stores the payload, and maps exceptions to user-visible messages — the
quota DOMException to a dedicated message, everything else to a generic
one. -/
def saveFlowchartStore (st : LocalStorage) (name payload : String) :
    Except String LocalStorage :=
  let res : Except JsErr LocalStorage := do
    let list := getFlowchartList st
    let st ← if list.contains name then pure st
             else updateFlowchartList st (list ++ [name])
    setItem st (flowchartKeyStem ++ name) (.sdata payload)
  match res with
  | .ok st => .ok st
  | .error .quotaExceeded =>
      .error "Storage quota exceeded. Try deleting some flowcharts first."
  | .error (.error _) => .error "Failed to save flowchart"

/-- StorageManager.loadFlowchart: a missing key throws a not-found Error,
which the catch rewraps into a message that still carries the name. -/
def loadFlowchartStore (st : LocalStorage) (name : String) :
    Except String StoredVal :=
  match getItem st (flowchartKeyStem ++ name) with
  | none =>
      .error ("Failed to load flowchart: Flowchart \"" ++ name ++ "\" not found")
  | some v => .ok v

/-- StorageManager.deleteFlowchart: a name not in the list throws a
not-found Error, but the catch collapses every failure — not-found and
list-write errors alike — into the same generic message. -/
def deleteFlowchartStore (st : LocalStorage) (name : String) :
    Except String LocalStorage :=
  let res : Except JsErr LocalStorage :=
    let list := getFlowchartList st
    if list.contains name then
      match updateFlowchartList st (list.erase name) with
      | .ok st => .ok (removeItem st (flowchartKeyStem ++ name))
      | .error e => .error e
    else .error (.error ("Flowchart \"" ++ name ++ "\" not found"))
  match res with
  | .ok st => .ok st
  | .error _ => .error "Failed to delete flowchart"

/-! ### Reference semantics of saveFlowchart

JS arrays hold references to node/edge objects. `saveFlowchart` returns
`{ nodes: [...this.nodes], edges: [...this.edges], ... }`: the spread
copies the arrays but not the objects. To state aliasing facts we model
the object heap explicitly: the live arrays and the snapshot arrays hold
references into a heap that in-place mutations update and that `deleteItem`
never touches (the deleted object stays reachable from any snapshot). -/

/-- A heap of node objects addressed by reference. -/
abbrev NodeHeap := List (Nat × Node)

/-- A heap of edge objects addressed by reference. -/
abbrev EdgeHeap := List (Nat × Edge)

/-- Dereference a node. -/
def derefNode (heap : NodeHeap) (r : Nat) : Option Node :=
  ((heap.find? (fun p => p.1 == r)).map (fun p => p.2))

/-- Dereference an edge. -/
def derefEdge (heap : EdgeHeap) (r : Nat) : Option Edge :=
  ((heap.find? (fun p => p.1 == r)).map (fun p => p.2))

/-- The CanvasManager state with the object heap made explicit:
`this.nodes` and `this.edges` are arrays of references. -/
structure RefState where
  nodeHeap : NodeHeap
  edgeHeap : EdgeHeap
  nodeRefs : List Nat
  edgeRefs : List Nat
deriving DecidableEq

/-- The object returned by CanvasManager.saveFlowchart: fresh arrays
holding the same references as the live arrays. -/
structure Snapshot where
  nodeRefs : List Nat
  edgeRefs : List Nat
deriving DecidableEq

/-- CanvasManager.saveFlowchart in the reference model: `[...this.nodes]`
and `[...this.edges]`. -/
def saveFlowchartRefs (s : RefState) : Snapshot :=
  ⟨s.nodeRefs, s.edgeRefs⟩

/-- The node records a snapshot denotes, read through a heap. -/
def snapshotNodes (heap : NodeHeap) (snap : Snapshot) : List (Option Node) :=
  snap.nodeRefs.map (derefNode heap)

/-- The edge records a snapshot denotes, read through a heap. -/
def snapshotEdges (heap : EdgeHeap) (snap : Snapshot) : List (Option Edge) :=
  snap.edgeRefs.map (derefEdge heap)

/-- The first live reference whose node has the given id
(`this.nodes.find(node => node.id === nodeId)`). -/
def findLiveNodeRef (s : RefState) (nodeId : String) : Option Nat :=
  s.nodeRefs.find? (fun r =>
    match derefNode s.nodeHeap r with
    | some n => n.id == nodeId
    | none => false)

/-- CanvasManager.updateNodeText in the reference model: mutate the found
node object in place (a heap update visible through every alias). -/
def updateNodeTextRef (s : RefState) (nodeId text : String) : RefState :=
  match findLiveNodeRef s nodeId with
  | some r =>
      { s with nodeHeap := s.nodeHeap.map (fun p =>
          if p.1 == r then (p.1, { p.2 with text := text }) else p) }
  | none => s

/-- CanvasManager.deleteItem (node case) in the reference model: filter
the live arrays by the object fields; the heap is untouched (the objects
survive through any snapshot that still references them). -/
def deleteNodeRef (s : RefState) (nodeId : String) : RefState :=
  { s with
    nodeRefs := s.nodeRefs.filter (fun r =>
      match derefNode s.nodeHeap r with
      | some n => n.id != nodeId
      | none => true)
    edgeRefs := s.edgeRefs.filter (fun r =>
      match derefEdge s.edgeHeap r with
      | some e => e.sourceId != nodeId && e.targetId != nodeId
      | none => true) }

/-! ### ShapeRegistry geometry

The trigonometric connection-point formulas of NodeTypes, with IEEE
doubles modelled as reals. Only the center of the other node is read
(`targetNode.x`, `targetNode.y`), so the functions take the target point. -/

/-- The geometric data of a node read by the shape functions. -/
structure NodeG where
  x : ℝ
  y : ℝ
  width : ℝ
  height : ℝ

open Real in
/-- `Math.atan2(y, x)`: the angle of the vector (x, y) in (-π, π]. -/
noncomputable def atan2 (y x : ℝ) : ℝ :=
  if 0 < x then arctan (y / x)
  else if x < 0 then
    (if 0 ≤ y then arctan (y / x) + π else arctan (y / x) - π)
  else if 0 < y then π / 2
  else if y < 0 then -(π / 2)
  else 0

open Real in
/-- NodeTypes.start.getConnectionPoint and NodeTypes.end.getConnectionPoint:
the polar parametrization of the ellipse at the center-to-center angle. -/
noncomputable def ellipseConnectionPoint (node : NodeG) (tx ty : ℝ) : ℝ × ℝ :=
  (node.x + node.width / 2 * cos (atan2 (ty - node.y) (tx - node.x)),
   node.y + node.height / 2 * sin (atan2 (ty - node.y) (tx - node.x)))

open Real in
/-- NodeTypes.process.getConnectionPoint: edge selection by comparing
|tan angle| with height/width, then the intersection along that edge
(the angle is `atan2 dy dx` for the center deltas dx, dy). -/
noncomputable def processConnectionPoint (node : NodeG) (tx ty : ℝ) : ℝ × ℝ :=
  if node.height / node.width < |tan (atan2 (ty - node.y) (tx - node.x))| then
    (node.x + node.height / 2 * tan (π / 2 - atan2 (ty - node.y) (tx - node.x)) *
       (if 0 < ty - node.y then 1 else -1),
     if 0 < ty - node.y then node.y + node.height / 2 else node.y - node.height / 2)
  else
    ((if 0 < tx - node.x then node.x + node.width / 2 else node.x - node.width / 2),
     node.y + node.width / 2 * tan (atan2 (ty - node.y) (tx - node.x)) *
       (if 0 < tx - node.x then 1 else -1))

open Real in
/-- NodeTypes.decision.getConnectionPoint: note that the returned
coordinate mixes in `|dx|` (resp. `|dy|`) — the center-to-center distance
to the target, not a local edge coordinate. -/
noncomputable def decisionConnectionPoint (node : NodeG) (tx ty : ℝ) : ℝ × ℝ :=
  if |tan (atan2 (ty - node.y) (tx - node.x))| < (node.height / 2) / (node.width / 2) then
    ((if 0 < tx - node.x then node.x + node.width / 2 else node.x - node.width / 2),
     node.y + (if 0 < ty - node.y then 1 else -1) * (node.height / 2) *
       (1 - |tx - node.x| / (node.width / 2)))
  else
    (node.x + (if 0 < tx - node.x then 1 else -1) * (node.width / 2) *
       (1 - |ty - node.y| / (node.height / 2)),
     if 0 < ty - node.y then node.y + node.height / 2 else node.y - node.height / 2)

open Real in
/-- NodeTypes.input.getConnectionPoint: the left/right branch uses a fixed
x (a corner's x) instead of a point on the slanted edge. -/
noncomputable def inputConnectionPoint (node : NodeG) (tx ty : ℝ) : ℝ × ℝ :=
  if π * 3 / 4 < |atan2 (ty - node.y) (tx - node.x)| ∨
     |atan2 (ty - node.y) (tx - node.x)| < π / 4 then
    ((if |atan2 (ty - node.y) (tx - node.x)| < π / 4 then
        node.x + node.width / 2 - node.width / 4
      else node.x - node.width / 2 - node.width / 4),
     node.y + (if |atan2 (ty - node.y) (tx - node.x)| < π / 4 then
        tan (atan2 (ty - node.y) (tx - node.x)) * (node.width / 2)
      else -(tan (atan2 (ty - node.y) (tx - node.x)) * (node.width / 2))))
  else
    (node.x + node.height / 2 /
       tan (if 0 < atan2 (ty - node.y) (tx - node.x) then
              atan2 (ty - node.y) (tx - node.x)
            else atan2 (ty - node.y) (tx - node.x) + π),
     if 0 < atan2 (ty - node.y) (tx - node.x) then node.y + node.height / 2
     else node.y - node.height / 2)

/-- Membership of a point on the ellipse outline drawn for start/end nodes
(the level set of the normalized-radius test in containsPoint). -/
def onEllipse (node : NodeG) (p : ℝ × ℝ) : Prop :=
  ((p.1 - node.x) / (node.width / 2)) ^ 2 +
    ((p.2 - node.y) / (node.height / 2)) ^ 2 = 1

/-- Membership of a point on the rectangle outline drawn for process nodes
(the boundary of the bounds test in containsPoint). -/
def onRectangle (node : NodeG) (p : ℝ × ℝ) : Prop :=
  (|p.1 - node.x| = node.width / 2 ∧ |p.2 - node.y| ≤ node.height / 2) ∨
  (|p.2 - node.y| = node.height / 2 ∧ |p.1 - node.x| ≤ node.width / 2)

/-- Membership of a point on the rhombus outline drawn for decision nodes
(the level set of the L1 test in containsPoint). -/
def onRhombus (node : NodeG) (p : ℝ × ℝ) : Prop :=
  |p.1 - node.x| / (node.width / 2) + |p.2 - node.y| / (node.height / 2) = 1

/-- Membership of a point on the parallelogram outline drawn for input
nodes (the boundary of the sheared-bounds test in containsPoint: the two
slanted sides at `x = node.x ∓ halfWidth - offset * relY`, or the top and
bottom sides between them). -/
def onParallelogram (node : NodeG) (p : ℝ × ℝ) : Prop :=
  let halfWidth := node.width / 2
  let halfHeight := node.height / 2
  let offset := node.width / 4
  let relY := (p.2 - node.y) / halfHeight
  (|p.2 - node.y| ≤ halfHeight ∧
    (p.1 = node.x - halfWidth - offset * relY ∨
     p.1 = node.x + halfWidth - offset * relY)) ∨
  (|p.2 - node.y| = halfHeight ∧
    node.x - halfWidth - offset * relY ≤ p.1 ∧
    p.1 ≤ node.x + halfWidth - offset * relY)

/-! ### Concrete example data -/

/-- A process node with its default size, as addNode creates it. -/
def processNode1 : Node :=
  { id := "node_1", nodeType := "process", x := 0, y := 0,
    width := 120, height := 60, text := "Process" }

/-- Process node labelled A (for the cycle-detection scenarios). -/
def nodeA : Node :=
  { id := "A", nodeType := "process", x := 0, y := 0,
    width := 120, height := 60, text := "A" }

/-- Process node labelled B. -/
def nodeB : Node :=
  { id := "B", nodeType := "process", x := 0, y := 100,
    width := 120, height := 60, text := "B" }

/-- Process node labelled C. -/
def nodeC : Node :=
  { id := "C", nodeType := "process", x := 0, y := 200,
    width := 120, height := 60, text := "C" }

/-- Process node labelled S. -/
def nodeS : Node :=
  { id := "S", nodeType := "process", x := 100, y := 0,
    width := 120, height := 60, text := "S" }

/-- Edge A→B. -/
def edgeAB : Edge := { id := "e1", sourceId := "A", targetId := "B", label := "" }

/-- Edge B→C. -/
def edgeBC : Edge := { id := "e2", sourceId := "B", targetId := "C", label := "" }

/-- Edge C→A. -/
def edgeCA : Edge := { id := "e3", sourceId := "C", targetId := "A", label := "" }

/-- Edge A→C. -/
def edgeAC : Edge := { id := "e4", sourceId := "A", targetId := "C", label := "" }

/-- Edge S→A. -/
def edgeSA : Edge := { id := "e5", sourceId := "S", targetId := "A", label := "" }

/-- Edge B→A. -/
def edgeBA : Edge := { id := "e6", sourceId := "B", targetId := "A", label := "" }

/-- Edge C→S. -/
def edgeCS : Edge := { id := "e7", sourceId := "C", targetId := "S", label := "" }

/-- A storage state with an empty name list and no quota pressure. -/
def storeEmptyList : LocalStorage :=
  { items := [(flowchartListKey, .slist [])], capacity := none }

/-- A storage state holding flowchart "doc" whose quota is already
exhausted, so that the list write during a delete throws. -/
def storeFullForDelete : LocalStorage :=
  { items := [(flowchartListKey, .slist ["doc"]),
              (flowchartKeyStem ++ "doc", .sdata "payload")],
    capacity := some 0 }

/-- A storage state listing "doc" with just enough quota for the current
content, so that writing the payload of "doc" throws QuotaExceededError. -/
def storeFullForSave : LocalStorage :=
  { items := [(flowchartListKey, .slist ["doc"])], capacity := some 40 }

/-- A storage state whose quota is too small for a grown name list, so
that the list write during a save throws (and is rewrapped as a plain
Error by updateFlowchartList). -/
def storeFullForList : LocalStorage :=
  { items := [(flowchartListKey, .slist [])], capacity := some 28 }

/-- A reference-model state with one live node object. -/
def refState1 : RefState :=
  { nodeHeap := [(0, processNode1)], edgeHeap := [],
    nodeRefs := [0], edgeRefs := [] }

/-- The default-size process-node geometry. -/
noncomputable def processNodeG : NodeG := { x := 0, y := 0, width := 120, height := 60 }

/-- The default-size decision-node geometry. -/
noncomputable def decisionNodeG : NodeG := { x := 0, y := 0, width := 120, height := 80 }

/-- The default-size input-node geometry. -/
noncomputable def inputNodeG : NodeG := { x := 0, y := 0, width := 120, height := 60 }

/-! ### Theorems -/

/-- C3 (counterexample): on the empty graph, validateFlowchart returns
early and produces no messages at all — not the claimed missing-start and
missing-end pair. -/
theorem validate_empty_graph_no_messages :
    validateFlowchart [] [] = ([] : List String) ∧
    [msgNoStart, msgNoEnd] ≠ ([] : List String) :=
  ⟨rfl, by decide⟩

/-- C3 (amended): on a nonempty graph with no start-type and no end-type
node, the first two validation messages are the missing-start and the
missing-end diagnostics. -/
theorem validate_missing_terminal_messages (nodes : List Node) (edges : List Edge)
    (hne : nodes ≠ [])
    (hs : nodes.filter (fun n => n.nodeType == "start") = [])
    (he : nodes.filter (fun n => n.nodeType == "end") = []) :
    (validateFlowchart nodes edges).take 2 = [msgNoStart, msgNoEnd] := by
  have h0 : (nodes.length == 0) = false := by
    rw [beq_eq_false_iff_ne]
    rw [Ne, List.length_eq_zero]
    exact hne
  simp [validateFlowchart, h0, hs, he]

/-- C3 (witness): a single process node triggers both terminal messages. -/
theorem validate_missing_terminal_messages_witness :
    (validateFlowchart [processNode1] []).take 2 = [msgNoStart, msgNoEnd] :=
  validate_missing_terminal_messages [processNode1] [] (by decide) rfl rfl

/-- C4: zooming in one wheel step at client point (100, 100) with the
identity camera moves the canvas-space point under the cursor from
(100, 100) to (1110/11, 1110/11): the offset update
`offset = p - (p - offset) * delta` does not preserve the cursor point
under the transform `device = (canvasPoint + offset) * scale` that
viewportToCanvas inverts. -/
theorem wheel_zoom_moves_cursor_point :
    viewportToCanvas (⟨1, 0, 0⟩ : Camera) 0 0 100 100 = (100, 100) ∧
    viewportToCanvas (handleWheel ⟨1, 0, 0⟩ 0 0 100 100 (-1)) 0 0 100 100 ≠ (100, 100) := by
  norm_num [viewportToCanvas, handleWheel]

/-- C5 (counterexample): addEdge does not reject self-loops — with node_1
present, addEdge(node_1, node_1) returns a created edge, not null. -/
theorem addEdge_self_loop_not_null :
    (addEdge (addNode emptyState "process" 0 0).2 "node_1" "node_1").1 ≠ none := by
  decide

/-- C5 (amended): addEdge returns null exactly when a matching directed
edge already exists, and two consecutive addEdge(a, b) calls leave exactly
one a→b edge when none existed (and leave an existing count unchanged). -/
theorem addEdge_duplicate_rejection (s : GraphState) (a b : String) :
    ((addEdge s a b).1 = none ↔ 0 < countEdges s a b) ∧
    countEdges (addEdge (addEdge s a b).2 a b).2 a b = max 1 (countEdges s a b) := by
  cases hany : s.edges.any (fun e => e.sourceId == a && e.targetId == b) with
  | true =>
    have hpos : 0 < countEdges s a b := by
      rcases List.any_eq_true.mp hany with ⟨e, he, hpe⟩
      have hmem : e ∈ s.edges.filter (fun e => e.sourceId == a && e.targetId == b) :=
        List.mem_filter.mpr ⟨he, hpe⟩
      exact List.length_pos.mpr (List.ne_nil_of_mem hmem)
    have h1 : addEdge s a b = (none, s) := by simp [addEdge, hany]
    rw [h1]
    refine ⟨by simpa using hpos, ?_⟩
    rw [h1]
    dsimp only
    omega
  | false =>
    have hzero : countEdges s a b = 0 := by
      unfold countEdges
      rw [List.length_eq_zero, List.filter_eq_nil_iff]
      intro e he
      have := List.any_eq_false.mp hany e he
      simpa using this
    have h1 : addEdge s a b =
        (some { id := "edge_" ++ toString (s.edgeCounter + 1), sourceId := a,
                targetId := b, label := "" },
         { s with
             edges := s.edges ++ [{ id := "edge_" ++ toString (s.edgeCounter + 1),
                                    sourceId := a, targetId := b, label := "" }],
             edgeCounter := s.edgeCounter + 1 }) := by
      simp [addEdge, hany]
    rw [h1]
    refine ⟨by simp [hzero], ?_⟩
    have hany2 : ({ s with
        edges := s.edges ++ [{ id := "edge_" ++ toString (s.edgeCounter + 1),
                               sourceId := a, targetId := b, label := "" }],
        edgeCounter := s.edgeCounter + 1 } : GraphState).edges.any
          (fun e => e.sourceId == a && e.targetId == b) = true := by
      simp [List.any_append]
    have h2 : ∀ s2 : GraphState, s2.edges.any
        (fun e => e.sourceId == a && e.targetId == b) = true →
        addEdge s2 a b = (none, s2) := by
      intro s2 h
      simp [addEdge, h]
    rw [h2 _ hany2]
    unfold countEdges
    simp [List.filter_append]
    unfold countEdges at hzero
    omega

/-- C6 (amended): deleting a node removes every edge whose source or
target is that node — the cascade holds for every state. -/
theorem delete_node_cascades_edges (s : GraphState) (nid : String) :
    ((deleteItem s (Item.node nid)).edges.all
      (fun e => e.sourceId != nid && e.targetId != nid)) = true := by
  rw [List.all_eq_true]
  intro e he
  simp only [deleteItem] at he
  exact (List.mem_filter.mp he).2

/-- C6 (counterexample): addEdge performs no liveness check, so it creates
an edge whose endpoints resolve to no live node — the no-dangling-edge
invariant is not preserved by addEdge with arbitrary ids. -/
theorem addEdge_creates_dangling_edge :
    edgesResolve (addEdge emptyState "ghost1" "ghost2").2 = false := by
  decide

/-- C7 (amended): the snapshot arrays are fresh copies — deleting a node
afterwards changes neither the node records nor the edge records that the
earlier snapshot denotes (the heap is untouched by deleteItem). -/
theorem snapshot_survives_delete (s : RefState) (nid : String) :
    snapshotNodes (deleteNodeRef s nid).nodeHeap (saveFlowchartRefs s) =
      snapshotNodes s.nodeHeap (saveFlowchartRefs s) ∧
    snapshotEdges (deleteNodeRef s nid).edgeHeap (saveFlowchartRefs s) =
      snapshotEdges s.edgeHeap (saveFlowchartRefs s) :=
  ⟨rfl, rfl⟩

/-- C7 (counterexample): the snapshot is not a deep copy — editing a live
node's text afterwards changes the node records the earlier snapshot
denotes, because the node objects are aliased. -/
theorem snapshot_aliases_node_objects :
    snapshotNodes (updateNodeTextRef refState1 "node_1" "Changed").nodeHeap
      (saveFlowchartRefs refState1) ≠
    snapshotNodes refState1.nodeHeap (saveFlowchartRefs refState1) := by
  norm_num [snapshotNodes, updateNodeTextRef, refState1, saveFlowchartRefs,
    findLiveNodeRef, derefNode, processNode1]
  decide

/-- C9 (amended, scenarios): the graph A→B→C→A yields exactly one cycle
message listing A, B, C (and closing the cycle back at A), and the
acyclic graph A→B, A→C yields no cycle message. -/
theorem cycle_detection_scenarios :
    checkForCycles [nodeA, nodeB, nodeC] [edgeAB, edgeBC, edgeCA] =
      [msgCycle ["A", "B", "C", "A"]] ∧
    checkForCycles [nodeA, nodeB, nodeC] [edgeAB, edgeAC] = ([] : List String) :=
  ⟨by decide, by decide⟩

/-- C9 (counterexample): the graph S→A, A→B, B→A, C→S has exactly one
cycle (A, B), yet checkForCycles emits two cycle messages: the labeled one
for the cycle, and — because the early return left S, A, B on the
recursion stack — a second, generic one when the DFS rooted at C reaches
S again. A cycle is thus not reported exactly once. -/
theorem cycle_reported_twice :
    checkForCycles [nodeS, nodeA, nodeB, nodeC] [edgeSA, edgeAB, edgeBA, edgeCS] =
      [msgCycle ["A", "B", "A"], msgCycleGeneric] := by
  decide

/-- C1 (counterexample): resizing the default 120×60 process node from the
se corner by pointer delta (-80, 0) hits the width floor (max 50 40 = 50),
yet the center still shifts by -40, so the nw corner moves from (-60, -30)
to (-65, -30). -/
theorem resize_se_at_floor_moves_nw_corner :
    nwCorner (resizeNodeData "se" (-80) 0 processNode1) ≠ nwCorner processNode1 := by
  norm_num [nwCorner, resizeNodeData, processNode1]

/-- C1 (amended): for each of the four resize corners, whenever that
gesture's own floors do not engage — its adjusted width (width ∓ dx per
the corner's sign) is at least 50 and its adjusted height (height ∓ dy)
at least 30 — the corner opposite to the resize corner keeps exactly its
coordinates. -/
theorem resize_fixes_opposite_corner_when_unclamped (n : Node) (dx dy : ℚ) :
    (50 ≤ n.width - dx → 30 ≤ n.height - dy →
      seCorner (resizeNodeData "nw" dx dy n) = seCorner n) ∧
    (50 ≤ n.width + dx → 30 ≤ n.height - dy →
      swCorner (resizeNodeData "ne" dx dy n) = swCorner n) ∧
    (50 ≤ n.width + dx → 30 ≤ n.height + dy →
      nwCorner (resizeNodeData "se" dx dy n) = nwCorner n) ∧
    (50 ≤ n.width - dx → 30 ≤ n.height + dy →
      neCorner (resizeNodeData "sw" dx dy n) = neCorner n) := by
  refine ⟨?_, ?_, ?_, ?_⟩ <;> intro hw hh
  · simp only [resizeNodeData, seCorner, max_eq_right hw, max_eq_right hh,
      Prod.mk.injEq]
    exact ⟨by ring, by ring⟩
  · simp only [resizeNodeData, swCorner, max_eq_right hw, max_eq_right hh,
      Prod.mk.injEq]
    exact ⟨by ring, by ring⟩
  · simp only [resizeNodeData, nwCorner, max_eq_right hw, max_eq_right hh,
      Prod.mk.injEq]
    exact ⟨by ring, by ring⟩
  · simp only [resizeNodeData, neCorner, max_eq_right hw, max_eq_right hh,
      Prod.mk.injEq]
    exact ⟨by ring, by ring⟩

/-- C1 (witness): an se resize of the default process node by (100, 5) —
a large grow whose floors do not engage (only the se-gesture conditions
width + dx ≥ 50 and height + dy ≥ 30 are needed) keeps the nw corner. -/
theorem resize_fixes_opposite_corner_witness :
    (50 : ℚ) ≤ processNode1.width + 100 ∧ (30 : ℚ) ≤ processNode1.height + 5 ∧
    nwCorner (resizeNodeData "se" 100 5 processNode1) = nwCorner processNode1 :=
  ⟨by norm_num [processNode1], by norm_num [processNode1],
   (resize_fixes_opposite_corner_when_unclamped processNode1 100 5).2.2.1
     (by norm_num [processNode1]) (by norm_num [processNode1])⟩

/-- C8 (counterexample): deleting an unknown name and a delete whose
list write fails on a full quota produce the identical error message, so
the not-found case is not distinguishable by the caller from a generic
delete failure. -/
theorem delete_not_found_same_as_write_failure :
    deleteFlowchartStore storeEmptyList "missing" = .error "Failed to delete flowchart" ∧
    deleteFlowchartStore storeFullForDelete "doc" = .error "Failed to delete flowchart" :=
  ⟨rfl, rfl⟩

/-- C8 (amended): loading an unknown name yields an error message that
carries the name and the words not found; deleting an unknown name yields
only the generic delete failure message; a quota hit while writing the
payload yields the dedicated quota message, while a failure of the list
write yields the generic save message. -/
theorem storage_error_messages (st : LocalStorage) (name : String)
    (hmiss : getItem st (flowchartKeyStem ++ name) = none)
    (hnot : (getFlowchartList st).contains name = false) :
    loadFlowchartStore st name =
      .error ("Failed to load flowchart: Flowchart \"" ++ name ++ "\" not found") ∧
    deleteFlowchartStore st name = .error "Failed to delete flowchart" ∧
    saveFlowchartStore storeFullForSave "doc" "x" =
      .error "Storage quota exceeded. Try deleting some flowcharts first." ∧
    saveFlowchartStore storeFullForList "new" "x" = .error "Failed to save flowchart" := by
  refine ⟨?_, ?_, rfl, rfl⟩
  · unfold loadFlowchartStore
    rw [hmiss]
  · have hnot2 : name ∉ getFlowchartList st := by simpa using hnot
    simp [deleteFlowchartStore, hnot2]

/-- C8 (witness): the unknown name "nope" against a storage holding only
an empty name list. -/
theorem storage_error_messages_witness :
    loadFlowchartStore storeEmptyList "nope" =
      .error ("Failed to load flowchart: Flowchart \"nope\" not found") ∧
    deleteFlowchartStore storeEmptyList "nope" = .error "Failed to delete flowchart" ∧
    saveFlowchartStore storeFullForSave "doc" "x" =
      .error "Storage quota exceeded. Try deleting some flowcharts first." ∧
    saveFlowchartStore storeFullForList "new" "x" = .error "Failed to save flowchart" :=
  storage_error_messages storeEmptyList "nope" rfl rfl

/-- Elements of `updateFirst p f l` are old elements or `f` of one. -/
theorem updateFirst_forall {α : Type} {P : α → Prop} (p : α → Bool) (f : α → α)
    (l : List α) (hl : ∀ a ∈ l, P a) (hf : ∀ a, P a → P (f a)) :
    ∀ a ∈ updateFirst p f l, P a := by
  induction l with
  | nil => intro a ha; simp [updateFirst] at ha
  | cons b bs ih =>
    intro a ha
    rw [updateFirst] at ha
    by_cases hb : p b
    · rw [if_pos hb] at ha
      rcases List.mem_cons.mp ha with h | h
      · exact h ▸ hf b (hl b (List.mem_cons_self _ _))
      · exact hl a (List.mem_cons_of_mem _ h)
    · rw [if_neg hb] at ha
      rcases List.mem_cons.mp ha with h | h
      · exact h ▸ hl b (List.mem_cons_self _ _)
      · exact ih (fun x hx => hl x (List.mem_cons_of_mem _ hx)) a h

/-- Every resize branch clamps the width to at least 50 and the height to
at least 30 (or leaves the node unchanged). -/
theorem resizeNodeData_size (dir : String) (dx dy : ℚ) (n : Node)
    (h : 50 ≤ n.width ∧ 30 ≤ n.height) :
    50 ≤ (resizeNodeData dir dx dy n).width ∧ 30 ≤ (resizeNodeData dir dx dy n).height := by
  unfold resizeNodeData
  split
  · exact ⟨le_max_left _ _, le_max_left _ _⟩
  · exact ⟨le_max_left _ _, le_max_left _ _⟩
  · exact ⟨le_max_left _ _, le_max_left _ _⟩
  · exact ⟨le_max_left _ _, le_max_left _ _⟩
  · exact h

/-- All five per-type default sizes meet the 50×30 floor. -/
theorem knownType_default_sizes (t : String) (h : knownType t = true) :
    50 ≤ defaultWidth t ∧ 30 ≤ defaultHeight t := by
  unfold knownType at h
  simp only [Bool.or_eq_true, beq_iff_eq] at h
  rcases h with ((((h | h) | h) | h) | h) <;> subst h <;>
    exact ⟨by norm_num [defaultWidth], by norm_num [defaultHeight]⟩

/-- One addNode or resize step preserves the size floor on all nodes. -/
theorem applyOp_size (s : GraphState) (op : Op)
    (h : ∀ n ∈ s.nodes, 50 ≤ n.width ∧ 30 ≤ n.height) :
    ∀ n ∈ (applyOp s op).nodes, 50 ≤ n.width ∧ 30 ≤ n.height := by
  cases op with
  | addNode t x y =>
    intro n hn
    simp only [applyOp, addNode] at hn
    by_cases hk : knownType t
    · rw [if_pos hk] at hn
      rcases List.mem_append.mp hn with hm | hm
      · exact h n hm
      · rcases List.mem_singleton.mp hm with rfl
        exact knownType_default_sizes t hk
    · rw [if_neg hk] at hn
      exact h n hn
  | resize nid dir dx dy =>
    intro n hn
    simp only [applyOp, resizeNode] at hn
    exact updateFirst_forall _ _ _ h (fun a ha => resizeNodeData_size dir dx dy a ha) n hn

/-- The size floor is preserved by any operation sequence. -/
theorem applyOps_size (ops : List Op) :
    ∀ s : GraphState, (∀ n ∈ s.nodes, 50 ≤ n.width ∧ 30 ≤ n.height) →
    ∀ n ∈ (applyOps s ops).nodes, 50 ≤ n.width ∧ 30 ≤ n.height := by
  induction ops with
  | nil => intro s hs; simpa [applyOps] using hs
  | cons op rest ih =>
    intro s hs
    have : applyOps s (op :: rest) = applyOps (applyOp s op) rest := by
      simp [applyOps]
    rw [this]
    exact ih (applyOp s op) (applyOp_size s op hs)

/-- C10: starting from the empty state, after any sequence of addNode and
resize operations every node's width is at least 50 and its height at
least 30 — the default sizes establish the floor and every resize branch
clamps to it. -/
theorem min_node_size_invariant (ops : List Op) :
    ∀ n ∈ (applyOps emptyState ops).nodes, 50 ≤ n.width ∧ 30 ≤ n.height :=
  applyOps_size ops emptyState (by simp [emptyState])

/-- C10 (witness): the node created by one addNode meets the floor. -/
theorem min_node_size_invariant_witness :
    50 ≤ processNode1.width ∧ 30 ≤ processNode1.height :=
  min_node_size_invariant [Op.addNode "process" 0 0] processNode1 (List.Mem.head _)

/-- atan2 on the right half plane is arctan of the slope. -/
theorem atan2_of_pos (y x : ℝ) (hx : 0 < x) : atan2 y x = Real.arctan (y / x) := by
  unfold atan2
  rw [if_pos hx]

/-- C2 (amended): for start/end (ellipse) and process (rectangle) nodes
with positive width and height, the connection point lies on the shape
outline for every target position. -/
theorem ellipse_process_connection_point_on_outline (node : NodeG) (tx ty : ℝ)
    (hw : 0 < node.width) (hh : 0 < node.height) :
    onEllipse node (ellipseConnectionPoint node tx ty) ∧
    onRectangle node (processConnectionPoint node tx ty) := by
  constructor
  · unfold onEllipse ellipseConnectionPoint
    have hw2 : node.width / 2 ≠ 0 := by positivity
    have hh2 : node.height / 2 ≠ 0 := by positivity
    simp only [add_sub_cancel_left]
    rw [mul_div_cancel_left₀ _ hw2, mul_div_cancel_left₀ _ hh2]
    exact Real.cos_sq_add_sin_sq _
  · unfold onRectangle processConnectionPoint
    set θ := atan2 (ty - node.y) (tx - node.x) with hθ
    by_cases hbr : node.height / node.width < |Real.tan θ|
    · rw [if_pos hbr]
      have htanpos : 0 < |Real.tan θ| := lt_of_le_of_lt (by positivity) hbr
      have h2 : node.height < |Real.tan θ| * node.width := (div_lt_iff₀ hw).mp hbr
      refine Or.inr ⟨?_, ?_⟩
      · dsimp only
        split_ifs with hdy
        · rw [add_sub_cancel_left]
          exact abs_of_pos (by positivity)
        · rw [sub_sub_cancel_left, abs_neg]
          exact abs_of_pos (by positivity)
      · dsimp only
        rw [add_sub_cancel_left, Real.tan_pi_div_two_sub]
        split_ifs with hdy
        · rw [mul_one, abs_mul, abs_inv,
            abs_of_pos (show (0:ℝ) < node.height / 2 by positivity)]
          rw [← div_eq_mul_inv, div_le_iff₀ htanpos]
          nlinarith
        · rw [mul_neg_one, abs_neg, abs_mul, abs_inv,
            abs_of_pos (show (0:ℝ) < node.height / 2 by positivity)]
          rw [← div_eq_mul_inv, div_le_iff₀ htanpos]
          nlinarith
    · rw [if_neg hbr]
      have hbr2 : |Real.tan θ| ≤ node.height / node.width := not_lt.mp hbr
      have h2 : |Real.tan θ| * node.width ≤ node.height := (le_div_iff₀ hw).mp hbr2
      refine Or.inl ⟨?_, ?_⟩
      · dsimp only
        split_ifs with hdx
        · rw [add_sub_cancel_left]
          exact abs_of_pos (by positivity)
        · rw [sub_sub_cancel_left, abs_neg]
          exact abs_of_pos (by positivity)
      · dsimp only
        rw [add_sub_cancel_left]
        split_ifs with hdx
        · rw [mul_one, abs_mul,
            abs_of_pos (show (0:ℝ) < node.width / 2 by positivity)]
          nlinarith
        · rw [mul_neg_one, abs_neg, abs_mul,
            abs_of_pos (show (0:ℝ) < node.width / 2 by positivity)]
          nlinarith

/-- C2 (witness): the on-outline facts at the default 120×60 node for the
target point (10, 5). -/
theorem ellipse_process_connection_point_witness :
    onEllipse processNodeG (ellipseConnectionPoint processNodeG 10 5) ∧
    onRectangle processNodeG (processConnectionPoint processNodeG 10 5) :=
  ellipse_process_connection_point_on_outline processNodeG 10 5
    (by norm_num [processNodeG]) (by norm_num [processNodeG])

/-- C2 (counterexample): the decision connection point toward the target
(200, 10) is (60, -280/3), far off the rhombus outline (its L1 measure is
10/3, not 1), because the formula mixes in the center-to-center distance;
and the input connection point toward (100, 0) is (30, 0), strictly inside
the parallelogram, because the right branch uses a corner's fixed x. -/
theorem decision_input_connection_point_off_outline :
    ¬ onRhombus decisionNodeG (decisionConnectionPoint decisionNodeG 200 10) ∧
    ¬ onParallelogram inputNodeG (inputConnectionPoint inputNodeG 100 0) := by
  have hd : decisionConnectionPoint decisionNodeG 200 10 = (60, -(280/3)) := by
    have h : atan2 ((10:ℝ) - decisionNodeG.y) ((200:ℝ) - decisionNodeG.x) =
        Real.arctan (1/20) := by
      rw [atan2_of_pos _ _ (by norm_num [decisionNodeG])]
      norm_num [decisionNodeG]
    unfold decisionConnectionPoint
    rw [h, Real.tan_arctan]
    rw [abs_of_pos (by norm_num : (0:ℝ) < 1/20)]
    rw [if_pos (by norm_num [decisionNodeG] :
      (1:ℝ)/20 < (decisionNodeG.height/2)/(decisionNodeG.width/2))]
    norm_num [decisionNodeG]
  have hi : inputConnectionPoint inputNodeG 100 0 = (30, 0) := by
    have h : atan2 ((0:ℝ) - inputNodeG.y) ((100:ℝ) - inputNodeG.x) = 0 := by
      rw [atan2_of_pos _ _ (by norm_num [inputNodeG])]
      norm_num [inputNodeG]
    unfold inputConnectionPoint
    rw [h]
    rw [if_pos (Or.inr (by rw [abs_zero]; positivity : |(0:ℝ)| < Real.pi / 4))]
    norm_num [inputNodeG, Real.pi_pos]
  rw [hd, hi]
  constructor
  · norm_num [onRhombus, decisionNodeG]
  · norm_num [onParallelogram, inputNodeG]

end Flowchart
